import Mathlib

/-!
Verification of the autodoc documentation pipeline (src/autodoc.py).

The development shallowly embeds the pipeline's pure logic:

* `cleanLLMContent`, `call_llm` — `LLMClient._call_llm` (lines 118-145): the
  HTTP exchange is modelled by an `Except String String` input (`.error e`
  stands for any exception raised in the `try` block — timeout, transport
  error, malformed response body), since the code catches every exception
  and returns the string `"Error: {e}"`.
* `stripFragmentFences`, `generate_openapi_fragment` — lines 59-116.  The
  external YAML parser (`yaml.safe_load`) is a function parameter
  `parseYaml : String → Option YValue` (`none` models a parse exception,
  caught by the code and turned into `None`).
* `YValue` with `pyTruthy` / `pyContains` / `pyGet` — Python semantics of
  the operations `_process_file` applies to the decoded fragment
  (`if fragment and "paths" in fragment`, `fragment.get(...)`), including
  the exceptions a non-dict value raises.
* `process_file` — `AutoDoc._process_file` (lines 201-271), with writes to
  disk recorded in a `RunState` and fallible writes modelled by the
  `*WriteOk` flags in `UnitEnv` (`false` = the write raises `OSError`).
  The MD5 fingerprint (`AutoDoc._calculate_md5`, external `hashlib`) is a
  function parameter `md5 : String → String`.
* `index_lines` etc. — `AutoDoc._generate_index` (lines 328-353); the
  on-disk existence checks are oracle predicates.
-/

namespace AutoDocSpec

/-- Values produced by decoding a YAML document, as Python objects
(`None`, `bool`, `int`, `str`, `list`, `dict` with string keys). -/
inductive YValue where
  | ynull : YValue
  | ybool : Bool → YValue
  | yint : Int → YValue
  | ystr : String → YValue
  | ylist : List YValue → YValue
  | ymap : List (String × YValue) → YValue

/-- Python exceptions that `_process_file` can raise uncaught. -/
inductive PyErr where
  | typeError
  | attributeError
  | osError
deriving DecidableEq

/-- Python `s.startswith(pre)`: code-point prefix test. -/
def py_startswith (s pre : String) : Bool := pre.data.isPrefixOf s.data

/-- Python `s.endswith(suf)`: code-point suffix test. -/
def py_endswith (s suf : String) : Bool := suf.data.isSuffixOf s.data

/-- Python `s[n:]`: drop the first `n` code points. -/
def py_drop (s : String) (n : Nat) : String := String.mk (s.data.drop n)

/-- Python `s[:n]` for `n ≥ 0`: take the first `n` code points. -/
def py_take (s : String) (n : Nat) : String := String.mk (s.data.take n)

/-- Python `s[:-n]` (for a string known to have at least `n` code
points): drop the last `n` code points. -/
def py_dropRight (s : String) (n : Nat) : String :=
  String.mk (s.data.take (s.data.length - n))

/-- Python `s.strip()`: remove leading and trailing whitespace. -/
def py_strip (s : String) : String :=
  String.mk (((s.data.dropWhile Char.isWhitespace).reverse.dropWhile Char.isWhitespace).reverse)

/-- Substring occurrence over code-point lists. -/
def containsSub (hay pat : List Char) : Bool :=
  match hay with
  | [] => pat.isEmpty
  | _ :: t => pat.isPrefixOf hay || containsSub t pat

/-- Python substring test `pat in s` for strings. -/
def strContains (s pat : String) : Bool := containsSub s.data pat.data

/-- Python truthiness of a decoded YAML value (`if fragment`), line 239. -/
def pyTruthy : YValue → Bool
  | .ynull => false
  | .ybool b => b
  | .yint n => n != 0
  | .ystr s => s != ""
  | .ylist l => !l.isEmpty
  | .ymap m => !m.isEmpty

/-- Python membership `key in v` (line 239): key lookup on a dict,
substring test on a string, elementwise `==` on a list, and a
`TypeError` on non-iterable values (`None`, `bool`, `int`). -/
def pyContains (key : String) : YValue → Except PyErr Bool
  | .ymap m => .ok (m.any (fun p => p.1 == key))
  | .ystr s => .ok (strContains s key)
  | .ylist l => .ok (l.any (fun v => match v with | .ystr t => t == key | _ => false))
  | _ => .error .typeError

/-- Python `v.get(key, dflt)` (lines 244-249): dict lookup with default;
an `AttributeError` on any non-dict value (str, list, int, ...). -/
def pyGet (v : YValue) (key : String) (dflt : YValue) : Except PyErr YValue :=
  match v with
  | .ymap m => .ok (((m.find? (fun p => p.1 == key)).map (fun p => p.2)).getD dflt)
  | _ => .error .attributeError

/-- Fence cleanup inside `LLMClient._call_llm` (lines 133-142): strip a
leading "```markdown" (11 chars), else a leading "```" unless "yaml"
occurs in the first 10 chars; strip a trailing "```" unconditionally;
then strip surrounding whitespace. -/
def cleanLLMContent (content : String) : String :=
  let c1 :=
    if py_startswith content "```markdown" then py_drop content 11
    else if py_startswith content "```" then
      (if !(strContains (py_take content 10) "yaml") then py_drop content 3 else content)
    else content
  let c2 := if py_endswith c1 "```" then py_dropRight c1 3 else c1
  py_strip c2

/-- Behaviour of `LLMClient._call_llm` (lines 118-145) as a function of the
HTTP exchange's outcome: on success the content is cleaned and returned;
any exception `e` in the `try` block is caught and the STRING
`"Error: {e}"` is returned instead (line 145). -/
def call_llm : Except String String → String
  | .ok content => cleanLLMContent content
  | .error e => "Error: " ++ e

/-- Behaviour of `LLMClient.generate_docs` (lines 26-57): builds a fixed
prompt and returns `_call_llm`'s answer unchanged. -/
def generate_docs (r : Except String String) : String := call_llm r

/-- Fence stripping inside `generate_openapi_fragment` (lines 106-111):
strip a leading "```yaml" (7 chars), then a leading "```", then a
trailing "```" — three independent conditions. -/
def stripFragmentFences (result : String) : String :=
  let r1 := if py_startswith result "```yaml" then py_drop result 7 else result
  let r2 := if py_startswith r1 "```" then py_drop r1 3 else r1
  if py_endswith r2 "```" then py_dropRight r2 3 else r2

/-- Behaviour of `LLMClient.generate_openapi_fragment` (lines 59-116):
call the LLM, strip fences, and parse as YAML; a parse exception is
caught and yields `None`.  `parseYaml` models `yaml.safe_load`. -/
def generate_openapi_fragment (parseYaml : String → Option YValue)
    (r : Except String String) : Option YValue :=
  parseYaml (stripFragmentFences (call_llm r))

/-- API-likelihood heuristic, line 235:
`any(k in code for k in ["APIView", "route", "def get(", "def post("])`. -/
def apiLike (code : String) : Bool :=
  strContains code "APIView" || strContains code "route" ||
    strContains code "def get(" || strContains code "def post("

/-- Lookup in the cache dictionary (`self.cache`, a flat str → str map). -/
def cacheLookup (c : List (String × String)) (k : String) : Option String :=
  (c.find? (fun p => p.1 == k)).map (fun p => p.2)

/-- Assignment `self.cache[k] = v` (line 224), as a lookup-faithful
association-list update. -/
def cacheInsert (c : List (String × String)) (k v : String) : List (String × String) :=
  (k, v) :: c.filter (fun p => p.1 ≠ k)

/-- The skip test of lines 214-216:
`str(rel_path) in self.cache and self.cache[str(rel_path)] == current_hash`. -/
def skipDecision (c : List (String × String)) (rel cur : String) : Bool :=
  match cacheLookup c rel with
  | some h => h == cur
  | none => false

/-- Path join mirroring `pathlib` (a `.` parent contributes nothing);
`dir = ""` stands for a unit at the project root. -/
def joinPath (dir name : String) : String :=
  if dir = "" then name else dir ++ "/" ++ name

/-- Fragment field access with default, i.e. Python `m.get(k, d)` on a
dict known to be a dict. -/
def fragGetD (m : List (String × YValue)) (k : String) (d : YValue) : YValue :=
  ((m.find? (fun p => p.1 == k)).map (fun p => p.2)).getD d

/-- Top-level key lookup in an assembled spec value (a dict). -/
def lookupY (v : YValue) (k : String) : Option YValue :=
  match v with
  | .ymap m => (m.find? (fun p => p.1 == k)).map (fun p => p.2)
  | _ => none

/-- Spec assembly of lines 241-250: the dict literal with the four
`fragment.get` calls, in evaluation order (title, description, paths,
components); each `.get` raises `AttributeError` on a non-dict fragment. -/
def assemble_spec (projectName fileName : String) (frag : YValue) : Except PyErr YValue := do
  let title ← pyGet frag "title" (.ystr (projectName ++ " API's Documentation"))
  let descr ← pyGet frag "description" (.ystr ("Auto-generated spec for " ++ fileName))
  let paths ← pyGet frag "paths" (.ymap [])
  let comps ← pyGet frag "components" (.ymap [("schemas", .ymap [])])
  return .ymap [("openapi", .ystr "3.0.0"),
    ("info", .ymap [("title", title), ("version", .ystr "1.0.0"), ("description", descr)]),
    ("paths", paths), ("components", comps)]

/-- The value `assemble_spec` produces on a dict fragment. -/
def assembled (projectName fileName : String) (m : List (String × YValue)) : YValue :=
  .ymap [("openapi", .ystr "3.0.0"),
    ("info", .ymap [("title", fragGetD m "title" (.ystr (projectName ++ " API's Documentation"))),
      ("version", .ystr "1.0.0"),
      ("description", fragGetD m "description" (.ystr ("Auto-generated spec for " ++ fileName)))]),
    ("paths", fragGetD m "paths" (.ymap [])),
    ("components", fragGetD m "components" (.ymap [("schemas", .ymap [])]))]

/-- Per-unit inputs of one `_process_file` call: the unit's identity
pieces and the outcomes of the external interactions.  `readResult`
models `file_path.read_text` (`.error` = exception, caught at line 208);
`proseCall` and `fragCall` model the two `_call_llm` HTTP exchanges; the
`*WriteOk` flags model whether each disk write succeeds (`false` = the
write raises `OSError`). -/
structure UnitEnv where
  projectName : String
  relDir : String
  stem : String
  fileName : String
  readResult : Except String String
  proseCall : Except String String
  fragCall : Except String String
  proseWriteOk : Bool
  specWriteOk : Bool
  htmlWriteOk : Bool

/-- The unit's identity `str(rel_path)`. -/
def relPathOfEnv (env : UnitEnv) : String := joinPath env.relDir env.fileName

/-- Observable state of one run: the in-memory cache and the files
written so far (paths relative to the docs output directory), plus the
validation warnings surfaced. -/
structure RunState where
  cache : List (String × String)
  proseFiles : List (String × String)
  specFiles : List (String × YValue)
  htmlFiles : List String
  warnings : List String

/-- Fresh state: empty cache, nothing written. -/
def initState : RunState := ⟨[], [], [], [], []⟩

/-- The API block of `_process_file` (lines 234-271): heuristic check,
fragment generation, the `if fragment and "paths" in fragment` gate,
spec assembly, non-fatal validation, and the spec/viewer writes.
`validationFails` models the outcome of `openapi_spec_validator.validate`
(an exception — caught at lines 253-260 and surfaced as a warning). -/
def api_phase (parseYaml : String → Option YValue) (env : UnitEnv)
    (validationFails : Bool) (code : String) (st : RunState) : RunState × Option PyErr :=
  if apiLike code then
    match generate_openapi_fragment parseYaml env.fragCall with
    | none => (st, none)
    | some fragment =>
      if pyTruthy fragment then
        match pyContains "paths" fragment with
        | .error e => (st, some e)
        | .ok false => (st, none)
        | .ok true =>
          match assemble_spec env.projectName env.fileName fragment with
          | .error e => (st, some e)
          | .ok spec =>
            let st1 := if validationFails then
                { st with warnings := st.warnings ++ ["OpenAPI Validation Error"] }
              else st
            if env.specWriteOk then
              let st2 := { st1 with
                specFiles := st1.specFiles ++ [(joinPath env.relDir (env.stem ++ ".yaml"), spec)] }
              if env.htmlWriteOk then
                ({ st2 with htmlFiles := st2.htmlFiles ++ [joinPath env.relDir (env.stem ++ ".html")] },
                  none)
              else (st2, some .osError)
            else (st1, some .osError)
      else (st, none)
  else (st, none)

/-- `AutoDoc._process_file` (lines 201-271): read (read errors caught,
unit skipped), the cache skip test, prose generation via
`generate_docs`, the cache assignment of line 224 (BEFORE the prose
write of line 231), the prose write, then the API block.  An uncaught
exception is reported in the second component (it aborts the run, since
`run` does not catch it). -/
def process_file (md5 : String → String) (parseYaml : String → Option YValue)
    (env : UnitEnv) (validationFails : Bool) (st : RunState) : RunState × Option PyErr :=
  match env.readResult with
  | .error _ => (st, none)
  | .ok code =>
    let currentHash := md5 code
    if skipDecision st.cache (relPathOfEnv env) currentHash then (st, none)
    else
      let docContent := generate_docs env.proseCall
      let st1 := { st with cache := cacheInsert st.cache (relPathOfEnv env) currentHash }
      if env.proseWriteOk then
        let st2 := { st1 with
          proseFiles := st1.proseFiles ++ [(joinPath env.relDir (env.stem ++ ".md"), docContent)] }
        api_phase parseYaml env validationFails code st2
      else (st1, some .osError)

/-- A discovered source file as the index builder sees it: relative
directory (`""` at the root), stem, and file name. -/
structure SrcFile where
  dir : String
  stem : String
  name : String
deriving DecidableEq

/-- The unit's identity `str(rel_path)`. -/
def relPathOfFile (f : SrcFile) : String := joinPath f.dir f.name

/-- The OpenAPI link of line 344: target is the stem only, no directory. -/
def openapi_link (f : SrcFile) : String := "[OpenAPI](" ++ f.stem ++ ".yaml)"

/-- The Swagger UI link of line 346: target is the stem only. -/
def swagger_link (f : SrcFile) : String := "[Swagger UI](" ++ f.stem ++ ".html)"

/-- The prose link target `doc_rel` of line 336 (keeps the directory). -/
def doc_rel (f : SrcFile) : String := joinPath f.dir (f.stem ++ ".md")

/-- Link target inside `openapi_link`. -/
def openapi_link_target (f : SrcFile) : String := f.stem ++ ".yaml"

/-- Link target inside `swagger_link`. -/
def swagger_link_target (f : SrcFile) : String := f.stem ++ ".html"

/-- Where `_process_file` writes the unit's spec, relative to the docs
directory (line 262). -/
def spec_out_rel (f : SrcFile) : String := joinPath f.dir (f.stem ++ ".yaml")

/-- Where `_process_file` writes the unit's viewer page (line 269). -/
def html_out_rel (f : SrcFile) : String := joinPath f.dir (f.stem ++ ".html")

/-- The `links` list of lines 342-346: OpenAPI link when the yaml file
exists, then Swagger UI link when the html file exists. -/
def index_links (ye he : SrcFile → Bool) (f : SrcFile) : List String :=
  (if ye f then [openapi_link f] else []) ++ (if he f then [swagger_link f] else [])

/-- One index entry (lines 348-351). -/
def index_entry (ye he : SrcFile → Bool) (f : SrcFile) : String :=
  let links := index_links ye he f
  if links.isEmpty then "- [" ++ relPathOfFile f ++ "](" ++ doc_rel f ++ ")"
  else "- [" ++ relPathOfFile f ++ "](" ++ doc_rel f ++ ") (" ++
    String.intercalate " | " links ++ ")"

/-- `sorted(files)` of line 334: `pathlib` paths compare by their string
form, so this is a sort by the relative path string. -/
def sortFiles (files : List SrcFile) : List SrcFile :=
  files.mergeSort (fun a b => relPathOfFile a ≤ relPathOfFile b)

/-- `AutoDoc._generate_index` (lines 328-353): three header lines, then
one entry per discovered file in sorted order; `ye`/`he` are the on-disk
existence checks of lines 343/345. -/
def index_lines (files : List SrcFile) (ye he : SrcFile → Bool) : List String :=
  ["# Project Documentation", "\nGenerated by Smriti Auto-Doc\n", "## Modules\n"]
    ++ (sortFiles files).map (index_entry ye he)

/-! Concrete fixtures used to evaluate the embedding on explicit inputs. -/

/-- A concrete stand-in for the external MD5 hex digest (the claims hold
for every fingerprint function; evaluation uses the identity). -/
def hashId : String → String := fun s => s

/-- A unit whose prose-generation HTTP call raises (timeout). -/
def c1env : UnitEnv :=
  { projectName := "Demo", relDir := "src", stem := "a", fileName := "a.py",
    readResult := .ok "x", proseCall := .error "timeout", fragCall := .ok "",
    proseWriteOk := true, specWriteOk := true, htmlWriteOk := true }

/-- A unit whose prose-artifact disk write raises `OSError`. -/
def c2env : UnitEnv :=
  { projectName := "Demo", relDir := "src", stem := "a", fileName := "a.py",
    readResult := .ok "code", proseCall := .ok "doc", fragCall := .ok "",
    proseWriteOk := false, specWriteOk := true, htmlWriteOk := true }

/-- An API-like unit (its content contains "APIView") with all writes
succeeding. -/
def c3env : UnitEnv :=
  { projectName := "Demo", relDir := "", stem := "b", fileName := "b.py",
    readResult := .ok "APIView", proseCall := .ok "doc", fragCall := .ok "",
    proseWriteOk := true, specWriteOk := true, htmlWriteOk := true }

/-- A YAML parse oracle returning a fragment whose paths map is empty. -/
def c3pf : String → Option YValue := fun _ => some (.ymap [("paths", .ymap [])])

/-- An API-like unit used to feed non-mapping fragment payloads. -/
def c4env : UnitEnv :=
  { projectName := "Demo", relDir := "", stem := "a", fileName := "a.py",
    readResult := .ok "APIView", proseCall := .ok "doc", fragCall := .ok "42",
    proseWriteOk := true, specWriteOk := true, htmlWriteOk := true }

/-- A unit whose content hash is already cached. -/
def c6env : UnitEnv :=
  { projectName := "Demo", relDir := "", stem := "b", fileName := "b.py",
    readResult := .ok "y", proseCall := .ok "doc", fragCall := .ok "",
    proseWriteOk := true, specWriteOk := true, htmlWriteOk := true }

/-- A run state whose cache already maps `b.py` to the fingerprint of
content `"y"` (under `hashId`). -/
def c6st : RunState :=
  { cache := [("b.py", "y")], proseFiles := [], specFiles := [], htmlFiles := [],
    warnings := [] }


/-! Helper lemmas about the embedding. -/

/-- On a dict fragment, assembly always succeeds with the expected value. -/
theorem assemble_spec_ymap (p fn : String) (m : List (String × YValue)) :
    assemble_spec p fn (.ymap m) = .ok (assembled p fn m) := rfl

/-- The API block never touches the cache. -/
theorem api_phase_cache (parseYaml : String → Option YValue) (env : UnitEnv)
    (vf : Bool) (code : String) (st : RunState) :
    (api_phase parseYaml env vf code st).1.cache = st.cache := by
  unfold api_phase
  repeat' split
  all_goals rfl

/-- Looking up a freshly inserted cache key yields the inserted value. -/
theorem cacheLookup_cacheInsert (c : List (String × String)) (k v : String) :
    cacheLookup (cacheInsert c k v) k = some v := by
  simp [cacheLookup, cacheInsert]

/-- When the unit is read and not skipped, the resulting cache is exactly
the input cache with the unit's fingerprint recorded (line 224), whatever
happens afterwards. -/
theorem process_file_cache (md5 : String → String) (parseYaml : String → Option YValue)
    (env : UnitEnv) (vf : Bool) (st : RunState) (code : String)
    (hread : env.readResult = .ok code)
    (hskip : skipDecision st.cache (relPathOfEnv env) (md5 code) = false) :
    (process_file md5 parseYaml env vf st).1.cache
      = cacheInsert st.cache (relPathOfEnv env) (md5 code) := by
  unfold process_file
  rw [hread]
  simp only [hskip, Bool.false_eq_true, if_false]
  split
  · exact api_phase_cache ..
  · rfl

/-- The validation outcome changes nothing in the API block except
possibly appending a warning. -/
theorem api_phase_validation (parseYaml : String → Option YValue) (env : UnitEnv)
    (code : String) (st : RunState) :
    (api_phase parseYaml env true code st).1.specFiles
      = (api_phase parseYaml env false code st).1.specFiles
    ∧ (api_phase parseYaml env true code st).1.htmlFiles
      = (api_phase parseYaml env false code st).1.htmlFiles
    ∧ (api_phase parseYaml env true code st).1.proseFiles
      = (api_phase parseYaml env false code st).1.proseFiles
    ∧ (api_phase parseYaml env true code st).1.cache
      = (api_phase parseYaml env false code st).1.cache
    ∧ (api_phase parseYaml env true code st).2 = (api_phase parseYaml env false code st).2
    ∧ ((api_phase parseYaml env true code st).1.warnings
          = (api_phase parseYaml env false code st).1.warnings
        ∨ (api_phase parseYaml env true code st).1.warnings
          = (api_phase parseYaml env false code st).1.warnings
              ++ ["OpenAPI Validation Error"]) := by
  unfold api_phase
  repeat' split
  all_goals first
  | exact ⟨rfl, rfl, rfl, rfl, rfl, Or.inl rfl⟩
  | exact ⟨rfl, rfl, rfl, rfl, rfl, Or.inr rfl⟩
  | contradiction

/-- The two index links of one file are distinct strings. -/
theorem openapi_link_ne_swagger_link (f : SrcFile) : openapi_link f ≠ swagger_link f := by
  intro h
  have h2 := congrArg String.length h
  simp only [openapi_link, swagger_link, String.length_append] at h2
  have h3 : 10 + f.stem.length + 6 = 13 + f.stem.length + 6 := h2
  omega

/-! Claim theorems. -/

/-- C1. The claim says a failed prose-generation request skips the unit:
no prose artifact, no cache mutation.  The code does the opposite:
`_call_llm` catches the exception and returns the string "Error: ...",
which `_process_file` cannot distinguish from real prose, so the error
text is written as the prose artifact and the cache entry is recorded
(contradicting the comment "Save cache on success" at line 223).  Here a
unit whose prose HTTP call raises "timeout" still gets a prose file with
content "Error: timeout", a cache entry, and no error. -/
theorem c1_prose_failure_writes_artifact_and_updates_cache :
    (process_file hashId (fun _ => none) c1env false initState).1.proseFiles
      = [("src/a.md", "Error: timeout")]
    ∧ (process_file hashId (fun _ => none) c1env false initState).1.cache
      = [("src/a.py", "x")]
    ∧ (process_file hashId (fun _ => none) c1env false initState).2 = none :=
  ⟨rfl, rfl, rfl⟩

/-- C2 (counterexample). A cache entry can exist for a unit whose
artifacts were never written: when the prose write raises, the in-memory
cache already holds the unit's fingerprint (the assignment at line 224
precedes the write at line 231) while no file was written. -/
theorem c2_counterexample_cache_entry_without_artifact :
    (process_file hashId (fun _ => none) c2env false initState).1.cache
      = [("src/a.py", "code")]
    ∧ (process_file hashId (fun _ => none) c2env false initState).1.proseFiles = []
    ∧ (process_file hashId (fun _ => none) c2env false initState).2 = some PyErr.osError :=
  ⟨rfl, rfl, rfl⟩

/-- C2 (amended). For every processed (non-skipped) unit the in-memory
cache entry is recorded BEFORE the prose artifact write: the entry is
present in the final cache whatever the write outcome, and when the
prose write fails the unit has its entry yet no new artifact, the error
propagating (so the run aborts before the cache is persisted). -/
theorem c2_cache_recorded_before_write (md5 : String → String)
    (parseYaml : String → Option YValue) (env : UnitEnv) (vf : Bool) (st : RunState)
    (code : String) (hread : env.readResult = .ok code)
    (hskip : skipDecision st.cache (relPathOfEnv env) (md5 code) = false) :
    cacheLookup (process_file md5 parseYaml env vf st).1.cache (relPathOfEnv env)
      = some (md5 code)
    ∧ (env.proseWriteOk = false →
        (process_file md5 parseYaml env vf st).1.proseFiles = st.proseFiles
        ∧ (process_file md5 parseYaml env vf st).2 = some PyErr.osError) := by
  refine ⟨?_, ?_⟩
  · rw [process_file_cache md5 parseYaml env vf st code hread hskip]
    exact cacheLookup_cacheInsert ..
  · intro hw
    unfold process_file
    rw [hread]
    simp [hskip, hw]

/-- C2 (witness). The amended statement evaluated on a concrete unit
whose prose write fails. -/
theorem c2_witness :
    cacheLookup (process_file hashId (fun _ => none) c2env false initState).1.cache
        (relPathOfEnv c2env) = some (hashId "code")
    ∧ (c2env.proseWriteOk = false →
        (process_file hashId (fun _ => none) c2env false initState).1.proseFiles
          = initState.proseFiles
        ∧ (process_file hashId (fun _ => none) c2env false initState).2
          = some PyErr.osError) :=
  c2_cache_recorded_before_write hashId (fun _ => none) c2env false initState "code" rfl rfl

/-- C3 (counterexample). A fragment whose paths map is EMPTY still
produces spec and viewer artifacts: the gate at line 239 only tests key
presence (`"paths" in fragment`), not non-emptiness, so the spec (with
an empty paths map) and the viewer page are written. -/
theorem c3_counterexample_empty_paths_map_written :
    (process_file hashId c3pf c3env false initState).1.specFiles
      = [("b.yaml", assembled "Demo" "b.py" [("paths", .ymap [])])]
    ∧ (process_file hashId c3pf c3env false initState).1.htmlFiles = ["b.html"]
    ∧ lookupY (assembled "Demo" "b.py" [("paths", .ymap [])]) "paths" = some (.ymap [])
    ∧ (process_file hashId c3pf c3env false initState).2 = none :=
  ⟨rfl, rfl, rfl, rfl⟩

/-- C3 (amended). For a unit that is read, not skipped, with all writes
succeeding and a dict fragment `m`: spec and viewer artifacts are
written if and only if the content matches the API heuristic AND the
fragment dict is non-empty AND it has a "paths" KEY — the paths map may
be empty. -/
theorem c3_spec_viewer_iff_paths_key (md5 : String → String)
    (parseYaml : String → Option YValue) (env : UnitEnv) (vf : Bool) (st : RunState)
    (code : String) (m : List (String × YValue))
    (hread : env.readResult = .ok code)
    (hskip : skipDecision st.cache (relPathOfEnv env) (md5 code) = false)
    (hw : env.proseWriteOk = true) (hs : env.specWriteOk = true) (hh : env.htmlWriteOk = true)
    (hfrag : generate_openapi_fragment parseYaml env.fragCall = some (.ymap m)) :
    ((process_file md5 parseYaml env vf st).1.specFiles ≠ st.specFiles
      ↔ (apiLike code = true ∧ m ≠ [] ∧ m.any (fun p => p.1 == "paths") = true))
    ∧ ((process_file md5 parseYaml env vf st).1.htmlFiles ≠ st.htmlFiles
      ↔ (apiLike code = true ∧ m ≠ [] ∧ m.any (fun p => p.1 == "paths") = true)) := by
  unfold process_file
  rw [hread]
  simp only [hskip, Bool.false_eq_true, if_false, hw, if_true]
  rcases hapi : apiLike code with _ | _
  · simp [api_phase, hapi]
  · cases m with
    | nil => simp [api_phase, hapi, hfrag, pyTruthy]
    | cons hd tl =>
      rcases hany : (hd :: tl).any (fun p => p.1 == "paths") with _ | _
      · simp [api_phase, hapi, hfrag, pyTruthy, pyContains, hany]
      · simp [api_phase, hapi, hfrag, pyTruthy, pyContains, hany, assemble_spec_ymap,
          hs, hh, apply_ite]

/-- C3 (witness). The amended statement evaluated on a concrete API-like
unit whose fragment is a dict with an (empty) paths map. -/
theorem c3_witness :
    ((process_file hashId c3pf c3env false initState).1.specFiles ≠ initState.specFiles
      ↔ (apiLike "APIView" = true
          ∧ ([("paths", YValue.ymap [])] : List (String × YValue)) ≠ []
          ∧ ([("paths", YValue.ymap [])] : List (String × YValue)).any
              (fun p => p.1 == "paths") = true))
    ∧ ((process_file hashId c3pf c3env false initState).1.htmlFiles ≠ initState.htmlFiles
      ↔ (apiLike "APIView" = true
          ∧ ([("paths", YValue.ymap [])] : List (String × YValue)) ≠ []
          ∧ ([("paths", YValue.ymap [])] : List (String × YValue)).any
              (fun p => p.1 == "paths") = true)) :=
  c3_spec_viewer_iff_paths_key hashId c3pf c3env false initState "APIView"
    [("paths", .ymap [])] rfl rfl rfl rfl rfl rfl

/-- C4. The claim says malformed fragment shapes never raise.  The code
raises: for a YAML payload decoding to the integer 42, the test
`"paths" in fragment` (line 239) raises an uncaught TypeError; for a
string payload containing "paths" as a substring, the membership test
passes and `fragment.get("title", ...)` (line 244) raises an uncaught
AttributeError.  Either exception propagates out of `_process_file` and
aborts the run (the prose artifact was already written). -/
theorem c4_nonmapping_fragment_raises :
    (process_file hashId (fun _ => some (.yint 42)) c4env false initState).2
      = some PyErr.typeError
    ∧ (process_file hashId (fun _ => some (.ystr "paths: [")) c4env false initState).2
      = some PyErr.attributeError
    ∧ (process_file hashId (fun _ => some (.yint 42)) c4env false initState).1.proseFiles
      = [("a.md", "doc")] :=
  ⟨rfl, rfl, rfl⟩

/-- C5 (counterexample). A payload that merely ends with a fence
delimiter, without any opening fence, is NOT returned unmodified: the
trailing "```" is stripped unconditionally (line 110). -/
theorem c5_counterexample_trailing_fence_stripped :
    stripFragmentFences "paths: {}\n```" ≠ "paths: {}\n```" := by decide

/-- C5 (amended). Fence stripping is not matched-pair: a leading fence
delimiter is stripped only at the very start, but a trailing "```" is
stripped whenever the payload ends with one, regardless of whether any
opening fence was present. -/
theorem c5_fence_stripping (s : String)
    (h1 : py_startswith s "```yaml" = false) (h2 : py_startswith s "```" = false) :
    stripFragmentFences s
      = if py_endswith s "```" then py_dropRight s 3 else s := by
  simp only [stripFragmentFences, h1, h2, Bool.false_eq_true, if_false]

/-- C5 (witness). A concrete fenceless payload ending in "```". -/
theorem c5_fence_stripping_witness :
    py_startswith "abc```" "```" = false
    ∧ stripFragmentFences "abc```"
        = (if py_endswith "abc```" "```" then py_dropRight "abc```" 3
            else ("abc```" : String)) :=
  ⟨by decide, c5_fence_stripping "abc```" (by decide) (by decide)⟩

/-- C6. The change-detection decision of lines 213-216: the unit is
skipped (state unchanged, nothing written) exactly when a cache entry
exists for its identity with a fingerprint equal to the current
content's fingerprint; otherwise the unit is processed and its
fingerprint is recorded. -/
theorem c6_change_detection :
    (∀ c rel cur, skipDecision c rel cur = true ↔ cacheLookup c rel = some cur)
    ∧ (∀ md5 parseYaml env vf st code, env.readResult = .ok code →
        skipDecision st.cache (relPathOfEnv env) (md5 code) = true →
        process_file md5 parseYaml env vf st = (st, none))
    ∧ (∀ md5 parseYaml env vf st code, env.readResult = .ok code →
        skipDecision st.cache (relPathOfEnv env) (md5 code) = false →
        cacheLookup (process_file md5 parseYaml env vf st).1.cache (relPathOfEnv env)
          = some (md5 code)) := by
  refine ⟨?_, ?_, ?_⟩
  · intro c rel cur
    unfold skipDecision
    cases h : cacheLookup c rel with
    | none => simp [h]
    | some v => simp [h]
  · intro md5 parseYaml env vf st code hread hskip
    unfold process_file
    rw [hread]
    simp [hskip]
  · intro md5 parseYaml env vf st code hread hskip
    rw [process_file_cache md5 parseYaml env vf st code hread hskip]
    exact cacheLookup_cacheInsert ..

/-- C6 (witness). A unit whose cached fingerprint matches is skipped. -/
theorem c6_witness :
    process_file hashId (fun _ => none) c6env false c6st = (c6st, none) :=
  c6_change_detection.2.1 hashId (fun _ => none) c6env false c6st "y" rfl (by decide)

/-- C7. For every dict fragment the assembled spec has: info.title (the
fragment's title when the key is present, else the project-name
default), info.version fixed at "1.0.0", info.description (fragment's,
else the unit-name default), the fragment's paths map (else empty) and
the fragment's components map (else an empty schema map); a
fragment-provided value is taken whole, never merged with the default. -/
theorem c7_assembled_spec_fields (p fn : String) (m : List (String × YValue)) :
    ∃ s, assemble_spec p fn (.ymap m) = .ok s
    ∧ lookupY s "openapi" = some (.ystr "3.0.0")
    ∧ (∃ info, lookupY s "info" = some info
        ∧ lookupY info "title" = some (fragGetD m "title" (.ystr (p ++ " API's Documentation")))
        ∧ lookupY info "version" = some (.ystr "1.0.0")
        ∧ lookupY info "description"
            = some (fragGetD m "description" (.ystr ("Auto-generated spec for " ++ fn))))
    ∧ lookupY s "paths" = some (fragGetD m "paths" (.ymap []))
    ∧ lookupY s "components" = some (fragGetD m "components" (.ymap [("schemas", .ymap [])])) :=
  ⟨assembled p fn m, rfl, rfl, ⟨_, rfl, rfl, rfl, rfl⟩, rfl, rfl⟩

/-- C8. Validation never blocks persistence: whether validation fails or
succeeds, the files written (spec, viewer, prose), the cache, and the
propagated error are identical; a failing validation at most appends a
warning. -/
theorem c8_validation_never_blocks_persistence (md5 : String → String)
    (parseYaml : String → Option YValue) (env : UnitEnv) (st : RunState) :
    (process_file md5 parseYaml env true st).1.specFiles
      = (process_file md5 parseYaml env false st).1.specFiles
    ∧ (process_file md5 parseYaml env true st).1.htmlFiles
      = (process_file md5 parseYaml env false st).1.htmlFiles
    ∧ (process_file md5 parseYaml env true st).1.proseFiles
      = (process_file md5 parseYaml env false st).1.proseFiles
    ∧ (process_file md5 parseYaml env true st).1.cache
      = (process_file md5 parseYaml env false st).1.cache
    ∧ (process_file md5 parseYaml env true st).2 = (process_file md5 parseYaml env false st).2
    ∧ ((process_file md5 parseYaml env true st).1.warnings
          = (process_file md5 parseYaml env false st).1.warnings
        ∨ (process_file md5 parseYaml env true st).1.warnings
          = (process_file md5 parseYaml env false st).1.warnings
              ++ ["OpenAPI Validation Error"]) := by
  cases hre : env.readResult with
  | error e => simp [process_file, hre]
  | ok code =>
    rcases hskip : skipDecision st.cache (relPathOfEnv env) (md5 code) with _ | _
    · rcases hw : env.proseWriteOk with _ | _
      · simp [process_file, hre, hskip, hw]
      · unfold process_file
        rw [hre]
        simp only [hskip, Bool.false_eq_true, if_false, hw, if_true]
        exact api_phase_validation parseYaml env code _
    · simp [process_file, hre, hskip]

/-- C9. The index has the three header lines plus exactly one entry per
discovered unit; the entries follow the lexicographically sorted order
of the units' relative paths; and a unit's entry carries the OpenAPI
(resp. Swagger UI) link exactly when the yaml (resp. html) file exists
on disk at index-build time. -/
theorem c9_index_complete_sorted_links (files : List SrcFile) (ye he : SrcFile → Bool) :
    (index_lines files ye he).length = 3 + files.length
    ∧ (sortFiles files).Perm files
    ∧ (sortFiles files).Pairwise (fun a b => relPathOfFile a ≤ relPathOfFile b)
    ∧ ∀ f : SrcFile,
        (openapi_link f ∈ index_links ye he f ↔ ye f = true)
        ∧ (swagger_link f ∈ index_links ye he f ↔ he f = true) := by
  refine ⟨?_, ?_, ?_, ?_⟩
  · simp [index_lines, sortFiles]
    omega
  · exact List.mergeSort_perm files _
  · refine List.Pairwise.imp ?_ (List.sorted_mergeSort ?_ ?_ files)
    · intro a b hab
      exact of_decide_eq_true hab
    · intro a b c hab hbc
      simp only [decide_eq_true_eq] at hab hbc ⊢
      exact le_trans hab hbc
    · intro a b
      simp only [Bool.or_eq_true, decide_eq_true_eq]
      exact le_total _ _
  · intro f
    rcases hy : ye f with _ | _ <;> rcases hh : he f with _ | _ <;>
      simp [index_links, hy, hh, openapi_link_ne_swagger_link f,
        (openapi_link_ne_swagger_link f).symm]

/-- C10. For a unit in a subdirectory, the index entry's prose link
target keeps the relative directory, but the OpenAPI and viewer link
targets are the bare stem with no directory component — in particular
they differ from the paths where `_process_file` actually wrote the yaml
and html artifacts. -/
theorem c10_subdir_links (f : SrcFile) (h : f.dir ≠ "") :
    doc_rel f = f.dir ++ "/" ++ (f.stem ++ ".md")
    ∧ openapi_link_target f = f.stem ++ ".yaml"
    ∧ swagger_link_target f = f.stem ++ ".html"
    ∧ openapi_link_target f ≠ spec_out_rel f
    ∧ swagger_link_target f ≠ html_out_rel f := by
  refine ⟨?_, rfl, rfl, ?_, ?_⟩
  · simp [doc_rel, joinPath, h]
  · intro he
    have h2 := congrArg String.length he
    simp only [openapi_link_target, spec_out_rel, joinPath, h, if_false,
      String.length_append] at h2
    have h3 : f.stem.length + 5 = f.dir.length + 1 + (f.stem.length + 5) := h2
    omega
  · intro he
    have h2 := congrArg String.length he
    simp only [swagger_link_target, html_out_rel, joinPath, h, if_false,
      String.length_append] at h2
    have h3 : f.stem.length + 5 = f.dir.length + 1 + (f.stem.length + 5) := h2
    omega

/-- C10 (witness). Concrete unit `src/api.py`: prose link `src/api.md`,
but OpenAPI/viewer targets `api.yaml`/`api.html`, unlike the artifact
paths `src/api.yaml`/`src/api.html`. -/
theorem c10_witness :
    doc_rel ⟨"src", "api", "api.py"⟩ = "src" ++ "/" ++ ("api" ++ ".md")
    ∧ openapi_link_target ⟨"src", "api", "api.py"⟩ = "api" ++ ".yaml"
    ∧ swagger_link_target ⟨"src", "api", "api.py"⟩ = "api" ++ ".html"
    ∧ openapi_link_target ⟨"src", "api", "api.py"⟩ ≠ spec_out_rel ⟨"src", "api", "api.py"⟩
    ∧ swagger_link_target ⟨"src", "api", "api.py"⟩ ≠ html_out_rel ⟨"src", "api", "api.py"⟩ :=
  c10_subdir_links ⟨"src", "api", "api.py"⟩ (by decide)

end AutoDocSpec
